import Mathlib

/-!
Shallow embedding of the zero-hour-implementation repository (TypeScript)
for verification of its natural-language specification.

Sources embedded:
  * src/src/core/Entity.ts — entity/component data model and EntityManager;
  * src/unnamed/part_000 (Systems) — MovementSystem, HealthSystem,
    CollisionSystem, SystemManager;
  * src/src/server/index.ts — GameServer command handling and game loop;
  * src/unnamed/part_001 (Renderer) — camera state and its mutators.

JavaScript numbers are modelled by `Rat` (the claims under scrutiny concern
exact arithmetic identities, clamping and ordering, not rounding).
A JS `Map<string, T>` is modelled by an association list `List (String × T)`
with `Map.set` replacing in place (as JS `Map.set` does, preserving the
key's insertion position) and `Map.get` returning the first match.
Code that would throw a `TypeError` at runtime (dereferencing an `undefined`
component) is modelled by `Option`, with `none` for the thrown exception.
-/

/-- Position component (`PositionComponent` in Entity.ts): x, y, z. -/
structure PositionComponent where
  x : Rat
  y : Rat
  z : Rat
deriving DecidableEq

/-- Velocity component (`VelocityComponent` in Entity.ts): x, y, z. -/
structure VelocityComponent where
  x : Rat
  y : Rat
  z : Rat
deriving DecidableEq

/-- Health component (`HealthComponent` in Entity.ts): current and maximum. -/
structure HealthComponent where
  current : Rat
  maximum : Rat
deriving DecidableEq

/-- `HealthComponent.isAlive` getter: `current > 0`. -/
def HealthComponent.isAlive (h : HealthComponent) : Bool :=
  decide (h.current > 0)

/-- Sprite component (`SpriteComponent` in Entity.ts). -/
structure SpriteComponent where
  textureId : String
  width : Rat
  height : Rat
  rotation : Rat
deriving DecidableEq

/-- Unit component (`UnitComponent` in Entity.ts). -/
structure UnitComponent where
  unitType : String
  playerId : String
  selected : Bool
deriving DecidableEq

/-- A tagged component value: one constructor per component class of Entity.ts. -/
inductive Component where
  | position (p : PositionComponent)
  | velocity (v : VelocityComponent)
  | health (h : HealthComponent)
  | sprite (s : SpriteComponent)
  | unit (u : UnitComponent)
deriving DecidableEq

/-- The `type` tag of each component class (the readonly `type` field). -/
def Component.type : Component → String
  | .position _ => "position"
  | .velocity _ => "velocity"
  | .health _ => "health"
  | .sprite _ => "sprite"
  | .unit _ => "unit"

/-- `Map.set k v` on an association list: replace the value at the first
occurrence of key `k` in place, else append at the end (JS `Map.set`). -/
def mapSet {β : Type} (k : String) (v : β) : List (String × β) → List (String × β)
  | [] => [(k, v)]
  | (k', v') :: rest => if k' = k then (k, v) :: rest else (k', v') :: mapSet k v rest

/-- An entity (`Entity` interface in Entity.ts): an id and a component map
keyed by component kind string. -/
structure Entity where
  id : String
  components : List (String × Component)
deriving DecidableEq

/-- `entity.components.get k` (JS `Map.get`): `none` models `undefined`. -/
def Entity.getComponent (e : Entity) (k : String) : Option Component :=
  e.components.lookup k

/-- `entity.components.has k` (JS `Map.has`). -/
def Entity.hasComponent (e : Entity) (k : String) : Bool :=
  (e.getComponent k).isSome

/-- `entity.components.get 'position' as PositionComponent` followed by a
field access: succeeds only when a position component is actually stored. -/
def Entity.getPosition (e : Entity) : Option PositionComponent :=
  match e.getComponent "position" with
  | some (Component.position p) => some p
  | _ => none

/-- `entity.components.get 'velocity' as VelocityComponent`, as above. -/
def Entity.getVelocity (e : Entity) : Option VelocityComponent :=
  match e.getComponent "velocity" with
  | some (Component.velocity v) => some v
  | _ => none

/-- `entity.components.get 'health' as HealthComponent`, as above. -/
def Entity.getHealth (e : Entity) : Option HealthComponent :=
  match e.getComponent "health" with
  | some (Component.health h) => some h
  | _ => none

/-- `entity.components.get 'sprite'`, as above. -/
def Entity.getSprite (e : Entity) : Option SpriteComponent :=
  match e.getComponent "sprite" with
  | some (Component.sprite s) => some s
  | _ => none

/-- In-place mutation of the stored component of kind `k`
(JS mutates the component object held in the map). -/
def Entity.setComponent (e : Entity) (k : String) (c : Component) : Entity :=
  { e with components := mapSet k c e.components }

/-- The body of `MovementSystem.update`'s `forEach` for one entity:
`position.x += velocity.x * deltaTime` (and y, z).  A missing position or
velocity component makes the JS body throw a `TypeError` (`none` here). -/
def moveEntity (e : Entity) (dt : Rat) : Option Entity := do
  let p ← e.getPosition
  let v ← e.getVelocity
  some (e.setComponent "position"
    (Component.position ⟨p.x + v.x * dt, p.y + v.y * dt, p.z + v.z * dt⟩))

/-- `MovementSystem.update(entities, deltaTime)`: the `forEach` over the
passed entities; a throw in the body aborts the whole call (`none`). -/
def MovementSystem.update : List Entity → Rat → Option (List Entity)
  | [], _ => some []
  | e :: es, dt => do
    let e' ← moveEntity e dt
    let es' ← MovementSystem.update es dt
    some (e' :: es')

/-- `MovementSystem.requiredComponents`. -/
def MovementSystem.requiredComponents : List String := ["position", "velocity"]

-- Association-map lemmas shared by several claims.

theorem lookup_mapSet_self {β : Type} (k : String) (v : β) (l : List (String × β)) :
    (mapSet k v l).lookup k = some v := by
  induction l with
  | nil => simp [mapSet, List.lookup]
  | cons hd tl ih =>
    obtain ⟨k', v'⟩ := hd
    by_cases hk : k' = k
    · subst hk
      simp [mapSet, List.lookup]
    · simp [mapSet, hk, List.lookup, beq_false_of_ne (Ne.symm hk), ih]

theorem lookup_mapSet_ne {β : Type} (k k' : String) (v : β) (l : List (String × β))
    (h : k' ≠ k) : (mapSet k v l).lookup k' = l.lookup k' := by
  induction l with
  | nil => simp [mapSet, List.lookup, beq_false_of_ne h]
  | cons hd tl ih =>
    obtain ⟨k₀, v₀⟩ := hd
    by_cases hk : k₀ = k
    · subst hk
      simp [mapSet, List.lookup, beq_false_of_ne h]
    · cases hbeq : (k' == k₀) <;> simp [mapSet, hk, List.lookup, hbeq, ih]

theorem getComponent_setComponent_self (e : Entity) (k : String) (c : Component) :
    (e.setComponent k c).getComponent k = some c := by
  simp [Entity.getComponent, Entity.setComponent, lookup_mapSet_self]

theorem getComponent_setComponent_ne (e : Entity) (k k' : String) (c : Component)
    (h : k' ≠ k) : (e.setComponent k c).getComponent k' = e.getComponent k' := by
  simp [Entity.getComponent, Entity.setComponent, lookup_mapSet_ne _ _ _ _ h]

/-- Claim C3: for every entity with position and velocity components, one
MovementSystem update adds velocity times the elapsed delta to the position
component-wise in x, y and z, with no clamping, and modifies no other
component of the entity. -/
theorem movement_update_adds_velocity (e : Entity) (p : PositionComponent) (v : VelocityComponent)
    (dt : Rat) (hp : e.getPosition = some p) (hv : e.getVelocity = some v) :
    ∃ e', MovementSystem.update [e] dt = some [e']
      ∧ e'.getPosition = some ⟨p.x + v.x * dt, p.y + v.y * dt, p.z + v.z * dt⟩
      ∧ ∀ k, k ≠ "position" → e'.getComponent k = e.getComponent k := by
  refine ⟨e.setComponent "position"
    (Component.position ⟨p.x + v.x * dt, p.y + v.y * dt, p.z + v.z * dt⟩), ?_, ?_, ?_⟩
  · simp [MovementSystem.update, moveEntity, hp, hv]
  · simp [Entity.getPosition, getComponent_setComponent_self]
  · intro k hk
    exact getComponent_setComponent_ne e "position" k _ hk

/-- Witness for C3 at the spec's concrete case: position (0,0,0),
velocity (10,5,0), dt = 1. -/
theorem movement_update_adds_velocity_witness :
    (⟨"entity_1", [("position", Component.position ⟨0, 0, 0⟩),
        ("velocity", Component.velocity ⟨10, 5, 0⟩)]⟩ : Entity).getPosition
        = some ⟨0, 0, 0⟩
    ∧ (⟨"entity_1", [("position", Component.position ⟨0, 0, 0⟩),
        ("velocity", Component.velocity ⟨10, 5, 0⟩)]⟩ : Entity).getVelocity
        = some ⟨10, 5, 0⟩
    ∧ ∃ e', MovementSystem.update
        [⟨"entity_1", [("position", Component.position ⟨0, 0, 0⟩),
          ("velocity", Component.velocity ⟨10, 5, 0⟩)]⟩] 1 = some [e']
      ∧ e'.getPosition = some ⟨0 + 10 * 1, 0 + 5 * 1, 0 + 0 * 1⟩
      ∧ ∀ k, k ≠ "position" → e'.getComponent k =
          (⟨"entity_1", [("position", Component.position ⟨0, 0, 0⟩),
            ("velocity", Component.velocity ⟨10, 5, 0⟩)]⟩ : Entity).getComponent k :=
  ⟨rfl, rfl, movement_update_adds_velocity _ ⟨0, 0, 0⟩ ⟨10, 5, 0⟩ 1 rfl rfl⟩

/-- The input of the repository's own Jest test
"should not affect entities without required components": an entity holding
only a position component at (50, 50). -/
def entityWithoutVelocity : Entity :=
  ⟨"entity_1", [("position", Component.position ⟨50, 50, 0⟩)]⟩

/-- Claim C7: `MovementSystem.update` on an entity that has a position
component but no velocity component.  The code dereferences the missing
velocity (`velocity.x`, with `velocity === undefined`), so the JS call throws
a TypeError instead of leaving the position unchanged: the update fails,
contradicting the repository's own test, which expects position (50, 50)
unchanged and no exception. -/
theorem movement_update_missing_velocity_throws :
    MovementSystem.update [entityWithoutVelocity] 1 = none := rfl

/-!
Server model (src/src/server/index.ts).  `GameServer` holds a `players`
map, a `gameState`, and emits messages over socket.io.  We record every
full-state snapshot broadcast to all connected clients (`io.emit('gameState',
this.gameState)`) in an `emitted` list, and `console.log` output in a `log`
list.  Game systems are not wired into `updateGame` in the source, so a tick
touches only the tick counter and the broadcast decision.
-/

/-- A player record as built by `handlePlayerJoin`. -/
structure Player where
  id : String
  name : String
  faction : String
  credits : Int
  power : Int
  powerCapacity : Int
  isActive : Bool
  color : String
deriving DecidableEq

/-- The server-owned `gameState` object. -/
structure GameState where
  tick : Nat
  entities : List (String × Entity)
  players : List (String × Player)
  status : String
deriving DecidableEq

/-- The payload fields the stub command handlers read for logging
(`command.data` in the source is free-form). -/
structure CommandData where
  targetX : Rat
  targetY : Rat
  targetId : String
  buildingType : String
  x : Rat
  y : Rat
deriving DecidableEq

/-- A game command: a kind tag and a payload. -/
structure Command where
  type : String
  data : CommandData
deriving DecidableEq

/-- The observable server state: the `players` map, the `gameState`, the
list of full-state snapshots broadcast to all clients so far, and the
console log. -/
structure ServerState where
  players : List (String × Player)
  gameState : GameState
  emitted : List GameState
  log : List String
deriving DecidableEq

/-- `broadcastGameState()`: increments `gameState.tick`, then emits the
(incremented) game state to all connected clients. -/
def broadcastGameState (s : ServerState) : ServerState :=
  let gs := { s.gameState with tick := s.gameState.tick + 1 }
  { s with gameState := gs, emitted := s.emitted ++ [gs] }

/-- `updateGame()`: one iteration of the `setInterval` game loop
(TICK_RATE = 60): increment the tick, then broadcast only when the tick is
divisible by 30. -/
def updateGame (s : ServerState) : ServerState :=
  let s1 := { s with gameState := { s.gameState with tick := s.gameState.tick + 1 } }
  if s1.gameState.tick % 30 = 0 then broadcastGameState s1 else s1

/-- `handleMoveCommand`: stub, logs only. -/
def handleMoveCommand (s : ServerState) (p : Player) (c : Command) : ServerState :=
  { s with log := s.log ++
      [p.name ++ " moving units to " ++ toString c.data.targetX ++ ", " ++ toString c.data.targetY] }

/-- `handleAttackCommand`: stub, logs only. -/
def handleAttackCommand (s : ServerState) (p : Player) (c : Command) : ServerState :=
  { s with log := s.log ++ [p.name ++ " attacking " ++ c.data.targetId] }

/-- `handleBuildCommand`: stub, logs only. -/
def handleBuildCommand (s : ServerState) (p : Player) (c : Command) : ServerState :=
  { s with log := s.log ++ [p.name ++ " building " ++ c.data.buildingType ++ " at "
      ++ toString c.data.x ++ ", " ++ toString c.data.y] }

/-- `handleSelectCommand`: stub, logs only. -/
def handleSelectCommand (s : ServerState) (p : Player) (c : Command) : ServerState :=
  { s with log := s.log ++ [p.name ++ " selecting at " ++ toString c.data.x ++ ", "
      ++ toString c.data.y] }

/-- `handleGameCommand(socket, command)`: returns unchanged when the sender
is not a registered player; otherwise logs the command, dispatches on
`command.type` (unknown kinds only log), and unconditionally ends with
`broadcastGameState()`. -/
def handleGameCommand (s : ServerState) (socketId : String) (c : Command) : ServerState :=
  match s.players.lookup socketId with
  | none => s
  | some player =>
    let s1 := { s with log := s.log ++ ["Command from " ++ player.name] }
    let s2 :=
      match c.type with
      | "move" => handleMoveCommand s1 player c
      | "attack" => handleAttackCommand s1 player c
      | "build" => handleBuildCommand s1 player c
      | "select" => handleSelectCommand s1 player c
      | _ => { s1 with log := s1.log ++ ["Unknown command type: " ++ c.type] }
    broadcastGameState s2

/-- A fresh server: the initial `gameState` literal of the GameServer class,
no connected players, nothing broadcast yet. -/
def serverFresh : ServerState :=
  { players := [],
    gameState := { tick := 0, entities := [], players := [], status := "waiting" },
    emitted := [], log := [] }

/-- A player record as built by `handlePlayerJoin` for socket id "p1". -/
def pDemo : Player :=
  { id := "p1", name := "Alice", faction := "GLA", credits := 1000, power := 0,
    powerCapacity := 100, isActive := true, color := "#ff0000" }

/-- A server with one connected player, as after one join. -/
def serverWithPlayer : ServerState :=
  { players := [("p1", pDemo)],
    gameState := { tick := 0, entities := [], players := [("p1", pDemo)], status := "waiting" },
    emitted := [], log := [] }

/-- A concrete command payload. -/
def cmdData0 : CommandData :=
  { targetX := 10, targetY := 20, targetId := "e9", buildingType := "barracks", x := 3, y := 4 }

/-- A move command. -/
def cmdMove : Command := { type := "move", data := cmdData0 }

/-- A command whose kind tag is not one of move/attack/build/select. -/
def cmdJump : Command := { type := "jump", data := cmdData0 }

set_option maxRecDepth 4000

/-- Counterexample to claim C1.  Both halves of the claim fail on the code:
(a) running the loop from a fresh server, no snapshot is broadcast during
iterations 1..29, yet two snapshots are broadcast within the 30 consecutive
iterations 30..59 (the tick also advances inside `broadcastGameState`, so
loop broadcasts drift to 29 iterations apart) — not exactly one broadcast
per 30 loop iterations; (b) `handleGameCommand` ends every processed command
with a full-state broadcast, so snapshots are also sent during command
processing. -/
theorem snapshot_cadence_cex :
    (updateGame^[29] serverFresh).emitted.length = 0
    ∧ (updateGame^[59] serverFresh).emitted.length = 2
    ∧ (handleGameCommand serverWithPlayer "p1" cmdMove).emitted.length = 1
    ∧ serverWithPlayer.emitted.length = 0 := by
  refine ⟨by decide, by decide, by decide, by decide⟩

/-- Claim C1, amended: one loop iteration broadcasts a full-state snapshot
exactly when the incremented tick is divisible by 30 (and then broadcasts
exactly once); in addition, `handleGameCommand` broadcasts a full-state
snapshot at the end of processing every command whose sender is a registered
player (and broadcasts nothing for an unregistered sender). -/
theorem snapshot_cadence_amended (s : ServerState) (sid : String) (c : Command) :
    ((updateGame s).emitted =
      if (s.gameState.tick + 1) % 30 = 0 then s.emitted ++ [(updateGame s).gameState]
      else s.emitted)
    ∧ ((handleGameCommand s sid c).emitted =
      if (s.players.lookup sid).isSome then s.emitted ++ [(handleGameCommand s sid c).gameState]
      else s.emitted) := by
  constructor
  · by_cases h : (s.gameState.tick + 1) % 30 = 0 <;>
      simp [updateGame, broadcastGameState, h]
  · cases hp : s.players.lookup sid with
    | none => simp [handleGameCommand, hp]
    | some p =>
      simp only [handleGameCommand, hp, Option.isSome_some, if_pos]
      split <;>
        simp [broadcastGameState, handleMoveCommand, handleAttackCommand,
          handleBuildCommand, handleSelectCommand]

/-- Counterexample to claim C2: on the 30th loop iteration of a fresh run
the tick goes from 29 to 31, because `broadcastGameState` increments the
tick a second time; the tick does not increase by exactly 1 on that
iteration. -/
theorem tick_increment_cex :
    ¬ ((updateGame (updateGame^[29] serverFresh)).gameState.tick
        = (updateGame^[29] serverFresh).gameState.tick + 1) := by
  decide

/-- Claim C2, amended: one loop iteration increases the tick by exactly 1
when the incremented tick is not divisible by 30, and by exactly 2 on
broadcast iterations, because `broadcastGameState` increments the tick
again. -/
theorem tick_increment_amended (s : ServerState) :
    (updateGame s).gameState.tick =
      if (s.gameState.tick + 1) % 30 = 0 then s.gameState.tick + 2
      else s.gameState.tick + 1 := by
  by_cases h : (s.gameState.tick + 1) % 30 = 0 <;>
    simp [updateGame, broadcastGameState, h]

/-- Counterexample to claim C6: processing the unknown-kind command "jump"
from the connected player "p1" does not leave GameState unchanged — the
trailing `broadcastGameState()` increments the tick (and emits a full-state
snapshot). -/
theorem unknown_command_cex :
    ¬ ((handleGameCommand serverWithPlayer "p1" cmdJump).gameState
        = serverWithPlayer.gameState)
    ∧ (handleGameCommand serverWithPlayer "p1" cmdJump).emitted.length = 1 := by
  refine ⟨by decide, by decide⟩

/-- Claim C6, amended: for a command from a registered player whose kind tag
is not one of move/attack/build/select, no command handler runs — the server
only logs the command and the unknown kind — and processing never throws;
but, as after every processed command, a full-state snapshot is broadcast by
the trailing `broadcastGameState()`, which also increments the tick.  Apart
from that tick increment, GameState is unchanged. -/
theorem unknown_command_amended (s : ServerState) (sid : String) (c : Command) (p : Player)
    (hp : s.players.lookup sid = some p) (h1 : c.type ≠ "move") (h2 : c.type ≠ "attack")
    (h3 : c.type ≠ "build") (h4 : c.type ≠ "select") :
    handleGameCommand s sid c =
      { players := s.players,
        gameState := { s.gameState with tick := s.gameState.tick + 1 },
        emitted := s.emitted ++ [{ s.gameState with tick := s.gameState.tick + 1 }],
        log := s.log ++ ["Command from " ++ p.name, "Unknown command type: " ++ c.type] } := by
  simp only [handleGameCommand, hp]
  simp [broadcastGameState]

/-- Witness for the amended C6 at the concrete unknown command "jump" from
the connected player "p1". -/
theorem unknown_command_amended_witness :
    serverWithPlayer.players.lookup "p1" = some pDemo
    ∧ cmdJump.type ≠ "move" ∧ cmdJump.type ≠ "attack"
    ∧ cmdJump.type ≠ "build" ∧ cmdJump.type ≠ "select"
    ∧ handleGameCommand serverWithPlayer "p1" cmdJump =
      { players := serverWithPlayer.players,
        gameState := { serverWithPlayer.gameState with
          tick := serverWithPlayer.gameState.tick + 1 },
        emitted := serverWithPlayer.emitted ++ [{ serverWithPlayer.gameState with
          tick := serverWithPlayer.gameState.tick + 1 }],
        log := serverWithPlayer.log ++ ["Command from " ++ pDemo.name,
          "Unknown command type: " ++ cmdJump.type] } :=
  ⟨rfl, by decide, by decide, by decide, by decide,
    unknown_command_amended serverWithPlayer "p1" cmdJump pDemo rfl
      (by decide) (by decide) (by decide) (by decide)⟩

/-!
Renderer camera (src/unnamed/part_001).  Only the camera state is
embeddable; canvas and 2D-context drawing are external effects.  The camera
mutators are `moveCamera`, `setZoom` and `setCamera`.
-/

/-- The Renderer's private camera record, initialized to x 0, y 0, zoom 1. -/
structure Camera where
  x : Rat
  y : Rat
  zoom : Rat
deriving DecidableEq

/-- The camera-holding part of the Renderer. -/
structure Renderer where
  camera : Camera
deriving DecidableEq

/-- `moveCamera(deltaX, deltaY)`: pan by a delta. -/
def Renderer.moveCamera (r : Renderer) (deltaX deltaY : Rat) : Renderer :=
  { r with camera := { r.camera with x := r.camera.x + deltaX, y := r.camera.y + deltaY } }

/-- `setZoom(zoom)`: `camera.zoom = Math.max(0.1, Math.min(3.0, zoom))`. -/
def Renderer.setZoom (r : Renderer) (zoom : Rat) : Renderer :=
  { r with camera := { r.camera with zoom := max (1/10) (min 3 zoom) } }

/-- `setCamera(x, y, zoom?)`: sets the position, and — when the optional
zoom argument is passed — assigns it to `camera.zoom` without clamping. -/
def Renderer.setCamera (r : Renderer) (x y : Rat) (zoom : Option Rat) : Renderer :=
  match zoom with
  | some z => { r with camera := { x := x, y := y, zoom := z } }
  | none => { r with camera := { r.camera with x := x, y := y } }

/-- Counterexample to claim C8: `setCamera` with an explicit zoom argument
does not clamp — from the initial camera, `setCamera(0, 0, 5)` leaves the
zoom at 5, outside [0.1, 3.0]. -/
theorem camera_zoom_cex :
    ¬ ((Renderer.setCamera ⟨⟨0, 0, 1⟩⟩ 0 0 (some 5)).camera.zoom ≤ 3) := by
  decide

/-- Claim C8, amended: `setZoom` clamps every input into [0.1, 3.0], and
`moveCamera` (pan) and `setCamera` without a zoom argument leave the zoom
unchanged; but `setCamera` with a zoom argument assigns it unclamped, so it
can leave the zoom outside [0.1, 3.0]. -/
theorem camera_zoom_amended (r : Renderer) (z x y dx dy : Rat) :
    ((1/10 : Rat) ≤ (r.setZoom z).camera.zoom ∧ (r.setZoom z).camera.zoom ≤ 3)
    ∧ (r.moveCamera dx dy).camera.zoom = r.camera.zoom
    ∧ (r.setCamera x y none).camera.zoom = r.camera.zoom
    ∧ ∀ z', (r.setCamera x y (some z')).camera.zoom = z' := by
  refine ⟨⟨le_max_left _ _, max_le (by norm_num) (min_le_left _ _)⟩, rfl, rfl, fun z' => rfl⟩

/-- `HealthSystem`'s private `regenerationRate` field: 1 HP per second. -/
def HealthSystem.regenerationRate : Rat := 1

/-- The regeneration step of `HealthSystem.update` on one health component:
`if (current < maximum) current = Math.min(maximum, current + rate*deltaTime)`.
The subsequent death check only logs and mutates nothing. -/
def regenHealth (h : HealthComponent) (dt : Rat) : HealthComponent :=
  if h.current < h.maximum then
    { h with current := min h.maximum (h.current + HealthSystem.regenerationRate * dt) }
  else h

/-- The body of `HealthSystem.update`'s `forEach` for one entity: a missing
health component makes the JS body throw a `TypeError` (`none` here). -/
def regenEntity (e : Entity) (dt : Rat) : Option Entity := do
  let h ← e.getHealth
  some (e.setComponent "health" (Component.health (regenHealth h dt)))

/-- `HealthSystem.update(entities, deltaTime)`: the `forEach` over the
passed entities. -/
def HealthSystem.update : List Entity → Rat → Option (List Entity)
  | [], _ => some []
  | e :: es, dt => do
    let e' ← regenEntity e dt
    let es' ← HealthSystem.update es dt
    some (e' :: es')

/-- A sequence of `HealthSystem.update` calls on a single entity, one per
elapsed delta in `dts`. -/
def runHealth (e : Entity) : List Rat → Option Entity
  | [] => some e
  | dt :: rest =>
    match HealthSystem.update [e] dt with
    | some [e'] => runHealth e' rest
    | _ => none

-- Shared facts about one health update.

theorem regenEntity_of_getHealth (e : Entity) (h : HealthComponent) (dt : Rat)
    (hh : e.getHealth = some h) :
    regenEntity e dt = some (e.setComponent "health" (Component.health (regenHealth h dt))) := by
  simp [regenEntity, hh]

theorem getHealth_setComponent (e : Entity) (h : HealthComponent) :
    (e.setComponent "health" (Component.health h)).getHealth = some h := by
  simp [Entity.getHealth, getComponent_setComponent_self]

theorem regenHealth_maximum (h : HealthComponent) (dt : Rat) :
    (regenHealth h dt).maximum = h.maximum := by
  unfold regenHealth
  split <;> rfl

theorem regenHealth_le (h : HealthComponent) (dt : Rat) (hle : h.current ≤ h.maximum) :
    (regenHealth h dt).current ≤ (regenHealth h dt).maximum := by
  unfold regenHealth
  split <;> simp [min_le_left, hle]

theorem HealthSystem.update_singleton (e : Entity) (h : HealthComponent) (dt : Rat)
    (hh : e.getHealth = some h) :
    HealthSystem.update [e] dt
      = some [e.setComponent "health" (Component.health (regenHealth h dt))] := by
  simp [HealthSystem.update, regenEntity_of_getHealth e h dt hh]

/-- Counterexample to claim C4: for an entity whose health component starts
with current 150 above maximum 100, one update with elapsed time 1 leaves
current at 150 — `current <= maximum` does not hold after the update, and the
update did not set `current = min(maximum, current + 1*deltaTime)` (which
would be 100): the regeneration branch only runs when `current < maximum`. -/
theorem health_cap_cex :
    (runHealth ⟨"entity_1", [("health", Component.health ⟨150, 100⟩)]⟩ [1]).bind Entity.getHealth
      = some ⟨150, 100⟩
    ∧ ¬ ((150 : Rat) ≤ 100)
    ∧ min (100 : Rat) (150 + 1 * 1) ≠ 150 := by
  refine ⟨by decide, by decide, by norm_num [min_def]⟩

/-- Claim C4, amended: for every entity whose health component satisfies
`current <= maximum`, after any number of HealthSystem updates with any
non-negative elapsed times `current <= maximum` still holds; and whenever
`current <= maximum` and the elapsed time is non-negative, one update sets
`current = min(maximum, current + 1*deltaTime)` (the code skips the
assignment when `current = maximum`, which coincides with that formula). -/
theorem health_never_exceeds_max (e : Entity) (h : HealthComponent) (dts : List Rat)
    (hh : e.getHealth = some h) (hle : h.current ≤ h.maximum)
    (hdts : ∀ dt ∈ dts, 0 ≤ dt) :
    (∃ e' h', runHealth e dts = some e' ∧ e'.getHealth = some h'
      ∧ h'.current ≤ h'.maximum)
    ∧ ∀ g : HealthComponent, ∀ dt : Rat, g.current ≤ g.maximum → 0 ≤ dt →
      (regenHealth g dt).current = min g.maximum (g.current + 1 * dt) := by
  constructor
  · induction dts generalizing e h with
    | nil =>
      exact ⟨e, h, rfl, hh, hle⟩
    | cons dt rest ih =>
      have hstep := HealthSystem.update_singleton e h dt hh
      have hh' := getHealth_setComponent e (regenHealth h dt)
      have hle' : (regenHealth h dt).current ≤ (regenHealth h dt).maximum :=
        regenHealth_le h dt hle
      have := ih (e.setComponent "health" (Component.health (regenHealth h dt)))
        (regenHealth h dt) hh' hle' (fun d hd => hdts d (List.mem_cons_of_mem _ hd))
      simpa [runHealth, hstep] using this
  · intro g dt hg hdt
    rcases lt_or_eq_of_le hg with hlt | heq
    · simp [regenHealth, HealthSystem.regenerationRate, hlt]
    · have h1 : ¬ g.current < g.maximum := by rw [heq]; exact lt_irrefl _
      have h2 : g.maximum ≤ g.current + 1 * dt := by rw [heq]; linarith
      simp [regenHealth, HealthSystem.regenerationRate, h1, min_eq_left h2, heq, hdt]

/-- Witness for the amended C4: an entity with health 50/100 and two updates
with elapsed times 1 and 2. -/
theorem health_never_exceeds_max_witness :
    (⟨"entity_1", [("health", Component.health ⟨50, 100⟩)]⟩ : Entity).getHealth = some ⟨50, 100⟩
    ∧ (50 : Rat) ≤ 100
    ∧ (∀ dt ∈ [(1 : Rat), 2], 0 ≤ dt)
    ∧ ((∃ e' h', runHealth ⟨"entity_1", [("health", Component.health ⟨50, 100⟩)]⟩ [1, 2] = some e'
        ∧ e'.getHealth = some h' ∧ h'.current ≤ h'.maximum)
      ∧ ∀ g : HealthComponent, ∀ dt : Rat, g.current ≤ g.maximum → 0 ≤ dt →
        (regenHealth g dt).current = min g.maximum (g.current + 1 * dt)) :=
  ⟨rfl, by decide, by decide,
    health_never_exceeds_max ⟨"entity_1", [("health", Component.health ⟨50, 100⟩)]⟩
      ⟨50, 100⟩ [1, 2] rfl (by decide) (by decide)⟩

/-- Claim C9: regeneration applies to dead entities too.  For every entity
with a health component with `current < maximum`, one HealthSystem update
with a positive elapsed time strictly increases `current`; in particular an
entity at `current = 0` (not alive) is alive after a single update, since
regeneration runs before the death check and the death check only logs. -/
theorem health_regen_applies_to_dead (e : Entity) (h : HealthComponent) (dt : Rat)
    (hh : e.getHealth = some h) (hlt : h.current < h.maximum) (hdt : 0 < dt) :
    ∃ e', HealthSystem.update [e] dt = some [e']
      ∧ e'.getHealth = some (regenHealth h dt)
      ∧ h.current < (regenHealth h dt).current
      ∧ (h.current = 0 → (regenHealth h dt).isAlive = true) := by
  refine ⟨e.setComponent "health" (Component.health (regenHealth h dt)),
    HealthSystem.update_singleton e h dt hh, getHealth_setComponent e _, ?_, ?_⟩
  · simp only [regenHealth, HealthSystem.regenerationRate, if_pos hlt]
    exact lt_min hlt (by linarith)
  · intro hzero
    simp only [regenHealth, HealthSystem.regenerationRate, if_pos hlt, HealthComponent.isAlive]
    rw [decide_eq_true_eq]
    refine lt_min ?_ ?_
    · rw [← hzero]
      exact hlt
    · rw [hzero]
      linarith

/-- Witness for C9: a dead unit with health 0/100 revives after a single
update with elapsed time 1. -/
theorem health_regen_applies_to_dead_witness :
    (⟨"entity_1", [("health", Component.health ⟨0, 100⟩)]⟩ : Entity).getHealth = some ⟨0, 100⟩
    ∧ (0 : Rat) < 100
    ∧ (0 : Rat) < 1
    ∧ ∃ e', HealthSystem.update [⟨"entity_1", [("health", Component.health ⟨0, 100⟩)]⟩] 1
        = some [e']
      ∧ e'.getHealth = some (regenHealth ⟨0, 100⟩ 1)
      ∧ (0 : Rat) < (regenHealth ⟨0, 100⟩ 1).current
      ∧ ((0 : Rat) = 0 → (regenHealth ⟨0, 100⟩ 1).isAlive = true) :=
  ⟨rfl, by decide, by decide,
    health_regen_applies_to_dead ⟨"entity_1", [("health", Component.health ⟨0, 100⟩)]⟩
      ⟨0, 100⟩ 1 rfl (by decide) (by decide)⟩

/-- `CollisionSystem.checkCollision(entityA, entityB)`: the AABB test
`posA.x < posB.x + spriteB.width && posA.x + spriteA.width > posB.x &&
posA.y < posB.y + spriteB.height && posA.y + spriteA.height > posB.y`. -/
def checkCollision (a b : Entity) : Option Bool := do
  let posA ← a.getPosition
  let posB ← b.getPosition
  let spriteA ← a.getSprite
  let spriteB ← b.getSprite
  some (decide (posA.x < posB.x + spriteB.width)
    && decide (posA.x + spriteA.width > posB.x)
    && decide (posA.y < posB.y + spriteB.height)
    && decide (posA.y + spriteA.height > posB.y))

/-- `CollisionSystem.requiredComponents`. -/
def CollisionSystem.requiredComponents : List String := ["position", "sprite"]

/-- Claim C5: collision detection is symmetric — for entities A, B each with
position and sprite components, `checkCollision(A,B) == checkCollision(B,A)`,
and the result is true exactly when the two axis-aligned rectangles
(position as top-left corner, sprite width/height as extents) overlap
strictly on both axes. -/
theorem collision_symmetric (a b : Entity) (pA pB : PositionComponent)
    (sA sB : SpriteComponent)
    (hpa : a.getPosition = some pA) (hpb : b.getPosition = some pB)
    (hsa : a.getSprite = some sA) (hsb : b.getSprite = some sB) :
    checkCollision a b = checkCollision b a
    ∧ (checkCollision a b = some true ↔
        (pA.x < pB.x + sB.width ∧ pA.x + sA.width > pB.x
          ∧ pA.y < pB.y + sB.height ∧ pA.y + sA.height > pB.y)) := by
  constructor
  · simp only [checkCollision, hpa, hpb, hsa, hsb, Option.bind_eq_bind, Option.some_bind,
      Option.some_inj]
    rw [show ∀ p q r s : Bool, (p && q && r && s) = (q && p && s && r) by decide]
  · simp [checkCollision, hpa, hpb, hsa, hsb]
    tauto

/-- Entity A of the spec's concrete AABB case: position (0,0), 32-by-32
sprite. -/
def entA : Entity :=
  ⟨"entity_1", [("position", Component.position ⟨0, 0, 0⟩),
    ("sprite", Component.sprite ⟨"tank_texture", 32, 32, 0⟩)]⟩

/-- Entity B of the spec's concrete AABB case: position (20,20), 32-by-32
sprite. -/
def entB : Entity :=
  ⟨"entity_2", [("position", Component.position ⟨20, 20, 0⟩),
    ("sprite", Component.sprite ⟨"tank_texture", 32, 32, 0⟩)]⟩

/-- Witness for C5 at the spec's concrete AABB case: A at (0,0) with a
32-by-32 sprite and B at (20,20) with a 32-by-32 sprite collide. -/
theorem collision_symmetric_witness :
    entA.getPosition = some ⟨0, 0, 0⟩
    ∧ entB.getPosition = some ⟨20, 20, 0⟩
    ∧ entA.getSprite = some ⟨"tank_texture", 32, 32, 0⟩
    ∧ entB.getSprite = some ⟨"tank_texture", 32, 32, 0⟩
    ∧ checkCollision entA entB = checkCollision entB entA
    ∧ (checkCollision entA entB = some true ↔
        ((0 : Rat) < 20 + 32 ∧ (0 : Rat) + 32 > 20
          ∧ (0 : Rat) < 20 + 32 ∧ (0 : Rat) + 32 > 20)) :=
  ⟨rfl, rfl, rfl, rfl,
    (collision_symmetric entA entB ⟨0, 0, 0⟩ ⟨20, 20, 0⟩ ⟨"tank_texture", 32, 32, 0⟩
      ⟨"tank_texture", 32, 32, 0⟩ rfl rfl rfl rfl).1,
    (collision_symmetric entA entB ⟨0, 0, 0⟩ ⟨20, 20, 0⟩ ⟨"tank_texture", 32, 32, 0⟩
      ⟨"tank_texture", 32, 32, 0⟩ rfl rfl rfl rfl).2⟩

/-!
EntityManager (Entity.ts): a `Map<string, Entity>` keyed by entity id.
-/

/-- The entity store of `EntityManager`. -/
structure EntityManager where
  entities : List (String × Entity)
deriving DecidableEq

/-- `addEntity(entity)`: `entities.set(entity.id, entity)`. -/
def EntityManager.addEntity (m : EntityManager) (e : Entity) : EntityManager :=
  { m with entities := mapSet e.id e m.entities }

/-- `removeEntity(entityId)`: `entities.delete(entityId)`. -/
def EntityManager.removeEntity (m : EntityManager) (entityId : String) : EntityManager :=
  { m with entities := m.entities.filter (fun kv => kv.1 ≠ entityId) }

/-- `getEntity(entityId)`. -/
def EntityManager.getEntity (m : EntityManager) (entityId : String) : Option Entity :=
  m.entities.lookup entityId

/-- `getAllEntities()`: `Array.from(entities.values())`. -/
def EntityManager.getAllEntities (m : EntityManager) : List Entity :=
  m.entities.map Prod.snd

/-- `getEntitiesWithComponents(componentTypes)`: the entities whose component
map has every requested kind (`componentTypes.every(...)`). -/
def EntityManager.getEntitiesWithComponents (m : EntityManager)
    (componentTypes : List String) : List Entity :=
  (m.entities.map Prod.snd).filter
    (fun e => componentTypes.all (fun t => e.hasComponent t))

/-- Claim C10: a query with the empty required-kind list matches every
entity — `getEntitiesWithComponents([])` returns exactly the entities of
`getAllEntities`, in the same order (`every` over an empty list is true). -/
theorem query_empty_matches_all (m : EntityManager) :
    m.getEntitiesWithComponents [] = m.getAllEntities := by
  simp [EntityManager.getEntitiesWithComponents, EntityManager.getAllEntities]
